import Mathlib

/-!
Shallow embedding of the market-report generator (two Python modules:
`daily_market_recap.py`, in namespace `DailyRecap`, and `crypto_update.py`,
in namespace `CryptoUpdate`), together with theorems settling the claims
about its data-acquisition adapters and report assembly.

Modelling conventions:
* Python floats are embedded as exact rationals (`ℚ`); the float formatting
  functions (`:.2f`, `:+.2f`, `:,.2f`) are embedded as fixed-point rendering
  with round-half-to-even on the exact rational.
* A JSON payload is embedded as a structure whose `Option` fields record
  whether the corresponding key is present.
* A network request is embedded as an oracle returning `Except Unit payload`;
  `.error` covers a transport failure or any malformed payload whose direct
  indexing would raise inside the corresponding `try` block.
* `float(s)` applied to an observation value is embedded via an inner
  `Option ℚ` (`none` = unparsable, which raises `ValueError` in the source).
* `datetime.now()` is embedded as an explicit epoch-day argument; the result
  of the optional narrative (`get_claude_analysis`) as an `Option String`
  argument, since both are effectful inputs of the assembler.
-/

namespace MarketRecap

/-- Round-half-to-even of a rational to an integer (the rounding CPython's
fixed-point float formatting applies, idealised to exact rationals). -/
def roundHalfEvenQ (q : ℚ) : ℤ :=
  let f := q.floor
  let r := q - f
  if r < 1/2 then f
  else if 1/2 < r then f + 1
  else if f % 2 = 0 then f else f + 1

/-- Two-digit zero padding of a natural number. -/
def pad2 (n : ℕ) : String :=
  if n < 10 then "0" ++ toString n else toString n

/-- Insert a comma after every three characters of a reversed digit list. -/
def commaRev : List Char → List Char
  | a :: b :: c :: d :: rest => a :: b :: c :: ',' :: commaRev (d :: rest)
  | l => l

/-- Thousands grouping of a digit string, as Python's `,` format flag. -/
def groupThousands (s : String) : String :=
  String.mk (commaRev s.data.reverse).reverse

/-- Embedding of Python `f"{q:.2f}"`. -/
def fmtFixed2 (q : ℚ) : String :=
  let c := (roundHalfEvenQ (|q| * 100)).toNat
  let s := toString (c / 100) ++ "." ++ pad2 (c % 100)
  if q < 0 then "-" ++ s else s

/-- Embedding of Python `f"{q:+.2f}"`. -/
def fmtSigned2 (q : ℚ) : String :=
  let c := (roundHalfEvenQ (|q| * 100)).toNat
  let s := toString (c / 100) ++ "." ++ pad2 (c % 100)
  if q < 0 then "-" ++ s else "+" ++ s

/-- Embedding of Python `f"{q:,.2f}"`. -/
def fmtComma2 (q : ℚ) : String :=
  let c := (roundHalfEvenQ (|q| * 100)).toNat
  let s := groupThousands (toString (c / 100)) ++ "." ++ pad2 (c % 100)
  if q < 0 then "-" ++ s else s

/-- Helper for `pyTitle`: the boolean records whether the previous character
was alphabetic. -/
def titleAux : Bool → List Char → List Char
  | _, [] => []
  | prevAlpha, c :: cs =>
    let c' := if c.isAlpha then (if prevAlpha then c.toLower else c.toUpper) else c
    c' :: titleAux c.isAlpha cs

/-- Embedding of Python `str.title()` (on the ASCII rate names it is applied
to in the source). -/
def pyTitle (s : String) : String := String.mk (titleAux false s.data)

/-- Gregorian date (year, month, day) from days since the Unix epoch
(Howard Hinnant's `civil_from_days` algorithm). -/
def civilFromDays (z₀ : ℤ) : ℤ × ℤ × ℤ :=
  let z := z₀ + 719468
  let era := Int.fdiv z 146097
  let doe := z - era * 146097
  let yoe := (doe - doe / 1460 + doe / 36524 - doe / 146096) / 365
  let y := yoe + era * 400
  let doy := doe - (365 * yoe + yoe / 4 - yoe / 100)
  let mp := (5 * doy + 2) / 153
  let d := doy - (153 * mp + 2) / 5 + 1
  let m := if mp < 10 then mp + 3 else mp - 9
  (if m ≤ 2 then y + 1 else y, m, d)

/-- English month name, as `strftime` format code `%B`. -/
def monthName (m : ℤ) : String :=
  if m = 1 then "January" else if m = 2 then "February"
  else if m = 3 then "March" else if m = 4 then "April"
  else if m = 5 then "May" else if m = 6 then "June"
  else if m = 7 then "July" else if m = 8 then "August"
  else if m = 9 then "September" else if m = 10 then "October"
  else if m = 11 then "November" else "December"

/-- Embedding of `strftime('%B %d, %Y')` on an epoch-day count. -/
def fmtDateLong (day : ℤ) : String :=
  let c := civilFromDays day
  monthName c.2.1 ++ " " ++ pad2 c.2.2.toNat ++ ", " ++ toString c.1

/-- Python `date.weekday()` (Monday = 0) of an epoch day; epoch day 0
(1970-01-01) was a Thursday. -/
def pyWeekday (day : ℤ) : ℤ := (day + 3).emod 7

example : fmtDateLong 18262 = "January 01, 2020" := by decide
example : pyWeekday 18262 = 2 := by decide

/-- One entry of an Alpha Vantage `data` list: the `date` and `value` keys
may be absent, and a present `value` may fail `float` parsing (inner
`none`). -/
structure Obs where
  date : Option String
  value : Option (Option ℚ)
deriving DecidableEq, Repr

/-- The keys of an Alpha Vantage JSON response that the source inspects:
`data`, `Time Series (Daily)` (an assoc map from date to a record whose
`10Y` entry may be missing or unparsable), `Note`, `Error Message`. -/
structure AVPayload where
  data : Option (List Obs)
  timeSeries : Option (List (String × Option (Option ℚ)))
  note : Option String
  errorMessage : Option String
deriving DecidableEq, Repr

/-- A FRED response: `observations` list, each entry being the result of
`float(obs['value'])` (`none` = missing key or unparsable value, which
raises inside the `try`). -/
structure FredPayload where
  observations : Option (List (Option ℚ))
deriving DecidableEq, Repr

/-- The treasury-yield result dict (`current_yield`, `previous_yield`,
`yield_change`, `yield_change_pct`, and the optional date keys only the
primary `data`-shape branch sets). -/
structure TreasuryData where
  current_yield : ℚ
  previous_yield : ℚ
  yield_change : ℚ
  yield_change_pct : ℚ
  current_date : Option String
  previous_date : Option String
deriving DecidableEq, Repr

/-- A short-term rate result dict; `note` is the optional approximation
note key. -/
structure RateData where
  current_rate : ℚ
  previous_rate : ℚ
  change : ℚ
  change_pct : ℚ
  note : Option String
deriving DecidableEq, Repr

/-- Embedding of `float(o.get('value', 0))`: a missing key defaults to `0`, an
unparsable value raises. -/
def obsValueDefault (o : Obs) : Except Unit ℚ :=
  match o.value with
  | none => .ok 0
  | some none => .error ()
  | some (some q) => .ok q

/-- Embedding of `float(o['value'])`: a missing key or unparsable value raises. -/
def obsValueStrict (o : Obs) : Except Unit ℚ :=
  match o.value with
  | some (some q) => .ok q
  | _ => .error ()

/-- Shared per-series FRED observation processing (identical in both
modules): two parsed observations build the rate record, anything else -
request error, missing `observations`, fewer than two entries, or a parse
failure - yields `None`. -/
def processFredObs (r : Except Unit FredPayload) : Option RateData :=
  match r with
  | .error _ => none
  | .ok p =>
    match p.observations with
    | some (some cv :: some pv :: _) =>
      some ⟨cv, pv, cv - pv, if pv ≠ 0 then (cv - pv) / pv * 100 else 0, none⟩
    | _ => none

namespace DailyRecap

/-- CoinGecko `market_chart` response: the `prices` list is projected to the
price component of its `[timestamp, price]` pairs. -/
structure ChartPayload where
  prices : Option (List ℚ)
deriving DecidableEq, Repr

/-- The two fields read from the per-coin endpoint
(`market_data.market_cap.usd`, `market_data.total_volume.usd`); a response
missing either key raises in the `try` and is covered by the oracle's
`.error`. -/
structure CoinFields where
  market_cap : ℚ
  volume : ℚ
deriving DecidableEq, Repr

/-- The per-asset result dict of `get_crypto_closing_prices`. -/
structure ClosingAsset where
  current_close : ℚ
  previous_close : ℚ
  price_change : ℚ
  price_change_pct : ℚ
  market_cap : ℚ
  volume_24h : ℚ
deriving DecidableEq, Repr

/-- Source field `self.crypto_ids`, in insertion order. -/
def crypto_ids : List (String × String) :=
  [("BTC", "bitcoin"), ("ETH", "ethereum"), ("XRP", "ripple")]

/-- Source field `self.fred_series`, in insertion order. -/
def fred_series : List (String × String) :=
  [("fed_funds_rate", "FEDFUNDS"), ("3_month_tbill", "DGS3MO"), ("2_year_treasury", "DGS2")]

/-- Body of one iteration of `get_crypto_closing_prices`: fetch the chart,
require a `prices` list of length at least two, take the last two closes
(`[-1][1]`, `[-2][1]`), compute the day-over-day deltas, then fetch the
market-cap/volume fields; any raise lands in the `except` and yields
`None`. -/
def processClosingAsset (chart : Except Unit ChartPayload)
    (coin : Except Unit CoinFields) : Option ClosingAsset :=
  match chart with
  | .error _ => none
  | .ok cp =>
    match cp.prices with
    | some l =>
      match l.reverse with
      | current_close :: previous_close :: _ =>
        let price_change := current_close - previous_close
        let price_change_pct :=
          if previous_close ≠ 0 then price_change / previous_close * 100 else 0
        match coin with
        | .error _ => none
        | .ok mf =>
          some ⟨current_close, previous_close, price_change, price_change_pct,
                mf.market_cap, mf.volume⟩
      | _ => none
    | none => none

/-- Source method `get_crypto_closing_prices`: one entry per configured asset, in
configured order; `fetchChart`/`fetchCoin` are the two per-coin requests,
indexed by CoinGecko coin id. -/
def get_crypto_closing_prices (fetchChart : String → Except Unit ChartPayload)
    (fetchCoin : String → Except Unit CoinFields) :
    List (String × Option ClosingAsset) :=
  crypto_ids.map fun p => (p.1, processClosingAsset (fetchChart p.2) (fetchCoin p.2))

/-- Embedding of `float(time_series[date]['10Y'])`: missing `10Y` key or unparsable
value raises. -/
def tsEntryValue (e : Option (Option ℚ)) : Except Unit ℚ :=
  match e with
  | some (some q) => .ok q
  | _ => .error ()

/-- Stable insertion into a list sorted by key descending (used to embed
`sorted(time_series.keys(), reverse=True)`). -/
def insertDescByKey (x : String × Option (Option ℚ)) :
    List (String × Option (Option ℚ)) → List (String × Option (Option ℚ))
  | [] => [x]
  | y :: ys => if y.1 < x.1 then x :: y :: ys else y :: insertDescByKey x ys

/-- Stable sort by key descending. -/
def sortDescByKey : List (String × Option (Option ℚ)) →
    List (String × Option (Option ℚ))
  | [] => []
  | x :: xs => insertDescByKey x (sortDescByKey xs)

/-- The `try`-block body of `get_treasury_yield` applied to a received
Alpha Vantage payload (lines 169-228): the `data` shape (when it has at
least two entries) is checked first, then the `Time Series (Daily)` shape,
then the `Note` rate-limit marker, then `Error Message`, then the
unexpected-format branch; the result is `.error` when the body raises
(a `float` parse failure or missing `10Y` key), in which case the caller's
`except` runs. -/
def processTreasuryPayload (p : AVPayload) : Except Unit (Option TreasuryData) :=
  match p.data with
  | some (latest :: previous :: _) => do
    let current_date := latest.date.getD "Unknown"
    let current_yield ← obsValueDefault latest
    let previous_date := previous.date.getD "Unknown"
    let previous_yield ← obsValueDefault previous
    let yield_change := current_yield - previous_yield
    .ok (some ⟨current_yield, previous_yield, yield_change,
          if previous_yield ≠ 0 then yield_change / previous_yield * 100 else 0,
          some current_date, some previous_date⟩)
  | _ =>
    match p.timeSeries with
    | some ts =>
      match sortDescByKey ts with
      | d0 :: d1 :: _ => do
        let current_yield ← tsEntryValue d0.2
        let previous_yield ← tsEntryValue d1.2
        let yield_change := current_yield - previous_yield
        .ok (some ⟨current_yield, previous_yield, yield_change,
              if previous_yield ≠ 0 then yield_change / previous_yield * 100 else 0,
              none, none⟩)
      | _ => .ok none
    | none =>
      match p.note with
      | some _ => .ok none
      | none =>
        match p.errorMessage with
        | some _ => .ok none
        | none => .ok none

/-- Source method `get_treasury_from_fred`: the fallback source; its own `try` turns a
request failure or parse failure into `None`. -/
def get_treasury_from_fred (fred : Except Unit FredPayload) : Option TreasuryData :=
  match fred with
  | .error _ => none
  | .ok p =>
    match p.observations with
    | some (some current_value :: some previous_value :: _) =>
      let change := current_value - previous_value
      some ⟨current_value, previous_value, change,
            if previous_value ≠ 0 then change / previous_value * 100 else 0,
            none, none⟩
    | some (_ :: _ :: _) => none
    | _ => none

/-- Source method `get_treasury_yield`: query the primary provider; only when the request
or the body raises does the `except` fall back to `get_treasury_from_fred`;
the `Note`, `Error Message`, short-`data` and unexpected-format branches
return `None` directly. -/
def get_treasury_yield (prim : Except Unit AVPayload)
    (fred : Except Unit FredPayload) : Option TreasuryData :=
  match prim with
  | .error _ => get_treasury_from_fred fred
  | .ok p =>
    match processTreasuryPayload p with
    | .error _ => get_treasury_from_fred fred
    | .ok r => r

/-- Source method `get_fred_rates` (daily module): for each configured series, a missing
FRED credential short-circuits to `None` without a request; otherwise the
request is issued and processed. The second component records the series
ids actually requested. -/
def get_fred_rates (fred_api_key : Option String)
    (fetch : String → Except Unit FredPayload) :
    List (String × Option RateData) × List String :=
  (fred_series.map fun p =>
    (p.1, match fred_api_key with
          | none => none
          | some _ => processFredObs (fetch p.2)),
   match fred_api_key with
   | none => []
   | some _ => fred_series.map Prod.snd)

/-- One maturity block of `get_additional_treasury_rates`: an Alpha Vantage
`data` list with at least two entries, both values indexed directly
(`['value']`, a raise lands in the per-block `except`). -/
def processAVRate (r : Except Unit AVPayload) : Option RateData :=
  match r with
  | .error _ => none
  | .ok p =>
    match p.data with
    | some (a :: b :: _) =>
      match obsValueStrict a, obsValueStrict b with
      | .ok current, .ok previous =>
        some ⟨current, previous, current - previous,
              if previous ≠ 0 then (current - previous) / previous * 100 else 0, none⟩
      | _, _ => none
    | _ => none

/-- Source method `get_additional_treasury_rates`: the 2-year and 3-month maturities from
the secondary source, then the fed-funds slot, filled only from a present
3-month record (copied values plus the approximation note), else `None`. -/
def get_additional_treasury_rates (fetch2y fetch3m : Except Unit AVPayload) :
    List (String × Option RateData) :=
  let r2y := processAVRate fetch2y
  let r3m := processAVRate fetch3m
  let fed := match r3m with
    | some r => some ⟨r.current_rate, r.previous_rate, r.change, r.change_pct,
                      some ("Approximated from 3M Treasury")⟩
    | none => none
  [("2_year_treasury", r2y), ("3_month_tbill", r3m), ("fed_funds_rate", fed)]

/-- Source method `get_fred_closing_rates`: FRED first; when that result is empty or
all-`None`, substitute the Alpha Vantage maturities. -/
def get_fred_closing_rates (fred_api_key : Option String)
    (fetch : String → Except Unit FredPayload)
    (fetch2y fetch3m : Except Unit AVPayload) :
    List (String × Option RateData) :=
  let fred := (get_fred_rates fred_api_key fetch).1
  if fred.isEmpty || fred.all (fun p => p.2.isNone) then
    get_additional_treasury_rates fetch2y fetch3m
  else fred

/-- Counter `crypto_positive` of `generate_market_recap`: the number of present
asset records with strictly positive `price_change_pct`. -/
def cryptoPositiveCount (crypto_data : List (String × Option ClosingAsset)) : ℕ :=
  (crypto_data.filter fun p =>
    match p.2 with
    | some d => decide (d.price_change_pct > 0)
    | none => false).length

/-- Counter `crypto_negative` of `generate_market_recap`. -/
def cryptoNegativeCount (crypto_data : List (String × Option ClosingAsset)) : ℕ :=
  (crypto_data.filter fun p =>
    match p.2 with
    | some d => decide (d.price_change_pct < 0)
    | none => false).length

/-- The sentiment computation of `generate_market_recap` (lines 553-564). -/
def marketSentiment (crypto_data : List (String × Option ClosingAsset)) : String :=
  if cryptoPositiveCount crypto_data > cryptoNegativeCount crypto_data then "bullish"
  else if cryptoNegativeCount crypto_data > cryptoPositiveCount crypto_data then "bearish"
  else "mixed"

/-- The note-free part of a rendered short-term rate line (shared by both
f-strings of lines 617-620). -/
def rateLineBase (rate_name : String) (d : RateData) : String :=
  let change_emoji := if d.change > 0 then "🟢" else "🔴"
  let rate_display_name := pyTitle (rate_name.replace ("_") (" "))
  change_emoji ++ " " ++ rate_display_name ++ ": " ++ fmtFixed2 d.current_rate ++
    "% (" ++ fmtSigned2 d.change ++ "bps from previous close)"

/-- One rendered short-term rate line of `generate_market_recap`
(lines 613-620): when the record carries a `note` key its value is
appended after the closing parenthesis, otherwise the plain line is
emitted. -/
def renderRateLine (rate_name : String) (d : RateData) : String :=
  let change_emoji := if d.change > 0 then "🟢" else "🔴"
  let rate_display_name := pyTitle (rate_name.replace ("_") (" "))
  match d.note with
  | some n =>
    change_emoji ++ " " ++ rate_display_name ++ ": " ++ fmtFixed2 d.current_rate ++
      "% (" ++ fmtSigned2 d.change ++ "bps from previous close)" ++ " " ++ n ++ "\n"
  | none =>
    change_emoji ++ " " ++ rate_display_name ++ ": " ++ fmtFixed2 d.current_rate ++
      "% (" ++ fmtSigned2 d.change ++ "bps from previous close)" ++ "\n"

/-- The four canned correlation sentences and the unavailable line
(lines 635-646). -/
def risingBearishLine : String :=
  "📉 Rising Treasury yields may be contributing to crypto selling pressure as investors seek safer yields\n"

/-- Canned sentence for rising yields without bearish sentiment. -/
def risingOtherLine : String :=
  "📈 Despite rising yields, crypto showing resilience - risk appetite remains strong\n"

/-- Canned sentence for non-rising yields with bullish sentiment. -/
def fallingBullishLine : String :=
  "📈 Falling Treasury yields supporting crypto rally as risk assets become more attractive\n"

/-- Canned sentence for non-rising yields without bullish sentiment. -/
def fallingOtherLine : String :=
  "📊 Lower yields not translating to crypto gains - other factors driving market sentiment\n"

/-- The generic fallback body. -/
def analysisUnavailableLine : String := "📊 Market data analysis unavailable\n"

/-- The `elif treasury_data and crypto_data:` / `else` part of the
correlation-analysis body (lines 633-646): when `treasury_data` and the
`crypto_data` dict are both truthy (the dict is truthy iff non-empty,
regardless of entries being `None`), one of four canned sentences keyed by
the sign of the yield change and the sentiment; else the unavailable
line. -/
def correlationFallbackBody (treasury_data : Option TreasuryData)
    (crypto_data : List (String × Option ClosingAsset))
    (sentiment : String) : String :=
  match treasury_data with
  | some td =>
    if crypto_data.isEmpty then analysisUnavailableLine
    else if td.yield_change > 0 then
      if sentiment = "bearish" then risingBearishLine else risingOtherLine
    else
      if sentiment = "bullish" then fallingBullishLine else fallingOtherLine
  | none => analysisUnavailableLine

/-- The body of the correlation-analysis section (lines 630-646). The
source's `if claude_analysis:` tests Python string truthiness: the
narrative branch is taken only when the narrative result is present AND
non-empty; a present empty string (reachable, since the narrative is the
`.strip()` of the service response) falls through to the fallback chain
exactly as an absent narrative does. -/
def correlationBody (claude_analysis : Option String)
    (treasury_data : Option TreasuryData)
    (crypto_data : List (String × Option ClosingAsset))
    (sentiment : String) : String :=
  match claude_analysis with
  | some a =>
    if a = "" then correlationFallbackBody treasury_data crypto_data sentiment
    else a ++ "\n"
  | none => correlationFallbackBody treasury_data crypto_data sentiment

/-- The per-asset performance lines (lines 596-599): one line per present
record, absent records contribute nothing. -/
def cryptoPerfLines (crypto_data : List (String × Option ClosingAsset)) : String :=
  String.join (crypto_data.map fun p =>
    match p.2 with
    | some d =>
      (if d.price_change_pct > 0 then "🟢" else "🔴") ++ " " ++ p.1 ++ ": $" ++
        fmtComma2 d.current_close ++ " (" ++ fmtSigned2 d.price_change_pct ++
        "% from previous close)\n"
    | none => "")

/-- The Treasury yield section (lines 602-606), omitted entirely when the
record is absent. -/
def treasurySection (treasury_data : Option TreasuryData) : String :=
  match treasury_data with
  | some td =>
    "\n🏛️ TREASURY YIELD UPDATE (Closing):\n📊 10Y Treasury: " ++
      fmtFixed2 td.current_yield ++ "% (" ++ fmtSigned2 td.yield_change ++
      "bps from previous close)\n"
  | none => ""

/-- The short-term rates section (lines 609-620): header when the dict is
truthy, then one line per present record. -/
def ratesSection (fred_data : List (String × Option RateData)) : String :=
  if fred_data.isEmpty then ""
  else
    "\n💵 SHORT-TERM RATES (Closing):\n" ++
      String.join (fred_data.map fun p =>
        match p.2 with
        | some d => renderRateLine p.1 d
        | none => "")

/-- The market summary section (lines 649-656). -/
def summarySection (sentiment : String) : String :=
  "\n📋 MARKET SUMMARY:\n🎯 Overall Sentiment: " ++ sentiment.toUpper ++
    "\n🌊 Risk Appetite: " ++
    (if sentiment = "bullish" then "High"
     else if sentiment = "bearish" then "Low" else "Mixed") ++
    "\n💡 Key Takeaway: " ++
    (if sentiment = "bullish" then "Risk-on environment favors crypto"
     else if sentiment = "bearish" then "Risk-off sentiment prevails"
     else "Mixed signals suggest cautious approach") ++
    "\n        \n#Crypto #Markets #Treasury #Finance #DigitalAssets #TradFi #DeFi #MarketRecap #ClosingPrices\n        "

/-- The `data_date` backdating rule (lines 569-580): Monday and Sunday map
to the preceding Friday, every other day to the previous day. -/
def dataDateOf (today : ℤ) : ℤ :=
  if pyWeekday today = 0 then today - 3
  else if pyWeekday today = 6 then today - 2
  else today - 1

/-- The result dict of `generate_market_recap`. -/
structure RecapResult where
  recap_text : String
  data_date : String
  run_date : String
deriving DecidableEq, Repr

/-- Source method `generate_market_recap` (lines 538-662), with the clock reading
(`datetime.now()`, as an epoch day) and the narrative result
(`get_claude_analysis`) as explicit inputs; the report text is built by
sequential concatenation exactly as the source's `recap +=` chain. -/
def generate_market_recap (crypto_data : List (String × Option ClosingAsset))
    (treasury_data : Option TreasuryData)
    (fred_data : List (String × Option RateData))
    (claude_analysis : Option String) (today : ℤ) : RecapResult :=
  let sentiment := marketSentiment crypto_data
  let data_date_str := fmtDateLong (dataDateOf today)
  let run_date_str := fmtDateLong today
  let recap := "\n🚀 DAILY MARKET RECAP - " ++ data_date_str ++ " 🚀\n📊 Based on " ++
    data_date_str ++ " Market Closing Prices\n📅 Report Generated: " ++ run_date_str ++
    "\n\n📈 CRYPTOCURRENCY PERFORMANCE (Day-over-Day):\n"
  let recap := recap ++ cryptoPerfLines crypto_data
  let recap := recap ++ treasurySection treasury_data
  let recap := recap ++ ratesSection fred_data
  let recap := recap ++ "\n🔗 MARKET CORRELATION ANALYSIS:\n"
  let recap := recap ++ correlationBody claude_analysis treasury_data crypto_data sentiment
  let recap := recap ++ summarySection sentiment
  ⟨recap, data_date_str, run_date_str⟩

/-- The date-dependent prefix of the recap: the first f-string of
line 587, which is the only part of the report mentioning the clock. -/
def recapHeaderText (today : ℤ) : String :=
  let data_date_str := fmtDateLong (dataDateOf today)
  let run_date_str := fmtDateLong today
  "\n🚀 DAILY MARKET RECAP - " ++ data_date_str ++ " 🚀\n📊 Based on " ++
    data_date_str ++ " Market Closing Prices\n📅 Report Generated: " ++ run_date_str ++
    "\n\n📈 CRYPTOCURRENCY PERFORMANCE (Day-over-Day):\n"

/-- The date-independent remainder of the recap text, determined by the
three data inputs and the narrative result alone. -/
def recapBodyText (crypto_data : List (String × Option ClosingAsset))
    (treasury_data : Option TreasuryData)
    (fred_data : List (String × Option RateData))
    (claude_analysis : Option String) : String :=
  cryptoPerfLines crypto_data ++ treasurySection treasury_data ++
    ratesSection fred_data ++ "\n🔗 MARKET CORRELATION ANALYSIS:\n" ++
    correlationBody claude_analysis treasury_data crypto_data (marketSentiment crypto_data) ++
    summarySection (marketSentiment crypto_data)

end DailyRecap

namespace CryptoUpdate

/-- The fields read from the CoinGecko per-coin endpoint in spot mode
(`market_data.current_price.usd`, `price_change_percentage_24h`,
`price_change_24h`, `market_cap.usd`, `total_volume.usd`); a response
missing one of these key paths raises and is covered by the oracle's
`.error`. -/
structure SpotPayload where
  current_price : ℚ
  price_change_percentage_24h : ℚ
  price_change_24h : ℚ
  market_cap : ℚ
  total_volume : ℚ
deriving DecidableEq, Repr

/-- The per-asset result dict of `get_crypto_prices`: the change fields are
copied from the provider, no previous value is stored and no delta is
computed. -/
structure SpotAsset where
  current_price : ℚ
  price_change_24h_pct : ℚ
  price_change_24h_usd : ℚ
  market_cap : ℚ
  volume_24h : ℚ
deriving DecidableEq, Repr

/-- Source field `self.crypto_ids` of the spot module, in insertion order. -/
def crypto_ids : List (String × String) :=
  [("BTC", "bitcoin"), ("ETH", "ethereum"), ("XRP", "ripple")]

/-- Source field `self.fred_series` of the spot module, in insertion order. -/
def fred_series : List (String × String) :=
  [("fed_funds_rate", "FEDFUNDS"), ("3_month_tbill", "DGS3MO"), ("2_year_treasury", "DGS2")]

/-- Source method `get_crypto_prices` (lines 50-92): one entry per configured asset; a
successful fetch copies the provider fields verbatim, any raise yields
`None` for that asset only. -/
def get_crypto_prices (fetch : String → Except Unit SpotPayload) :
    List (String × Option SpotAsset) :=
  crypto_ids.map fun p =>
    (p.1, match fetch p.2 with
          | .error _ => none
          | .ok sp => some ⟨sp.current_price, sp.price_change_percentage_24h,
                            sp.price_change_24h, sp.market_cap, sp.total_volume⟩)

/-- Source method `get_treasury_yield` (lines 94-140): a `data` list with at least one
entry is accepted; with exactly one entry the previous yield is set to the
current one (zero change); values are indexed directly (`['value']`), so a
missing or unparsable value raises into the `except`, which returns
`None`. -/
def get_treasury_yield (prim : Except Unit AVPayload) : Option TreasuryData :=
  match prim with
  | .error _ => none
  | .ok p =>
    match p.data with
    | some (latest :: rest) =>
      match obsValueStrict latest with
      | .error _ => none
      | .ok current_yield =>
        match (match rest with
               | o :: _ => obsValueStrict o
               | [] => .ok current_yield) with
        | .error _ => none
        | .ok previous_yield =>
          let yield_change := current_yield - previous_yield
          some ⟨current_yield, previous_yield, yield_change,
                if previous_yield ≠ 0 then yield_change / previous_yield * 100 else 0,
                none, none⟩
    | _ => none

/-- Source method `get_fred_rates` (lines 142-193): no credential check is performed -
every configured series is requested (with the module's constant
`api_key=None`) and processed; a failure yields `None` for that series.
The second component records the series ids requested. -/
def get_fred_rates (fetch : String → Except Unit FredPayload) :
    List (String × Option RateData) × List String :=
  (fred_series.map fun p => (p.1, processFredObs (fetch p.2)),
   fred_series.map Prod.snd)

/-- Counter `crypto_positive` of `generate_market_analysis` (lines 210-211). -/
def cryptoPositiveCount (crypto_data : List (String × Option SpotAsset)) : ℕ :=
  (crypto_data.filter fun p =>
    match p.2 with
    | some d => decide (d.price_change_24h_pct > 0)
    | none => false).length

/-- Counter `crypto_negative` of `generate_market_analysis` (lines 212-213). -/
def cryptoNegativeCount (crypto_data : List (String × Option SpotAsset)) : ℕ :=
  (crypto_data.filter fun p =>
    match p.2 with
    | some d => decide (d.price_change_24h_pct < 0)
    | none => false).length

/-- The sentiment computation of `generate_market_analysis`
(lines 216-221). -/
def marketSentiment (crypto_data : List (String × Option SpotAsset)) : String :=
  if cryptoPositiveCount crypto_data > cryptoNegativeCount crypto_data then "bullish"
  else if cryptoNegativeCount crypto_data > cryptoPositiveCount crypto_data then "bearish"
  else "mixed"

/-- The per-asset performance lines of the spot report (lines 231-234). -/
def cryptoPerfLines (crypto_data : List (String × Option SpotAsset)) : String :=
  String.join (crypto_data.map fun p =>
    match p.2 with
    | some d =>
      (if d.price_change_24h_pct > 0 then "🟢" else "🔴") ++ " " ++ p.1 ++ ": $" ++
        fmtComma2 d.current_price ++ " (" ++ fmtSigned2 d.price_change_24h_pct ++ "%)\n"
    | none => "")

/-- The Treasury yield section of the spot report (lines 237-241). -/
def treasurySection (treasury_data : Option TreasuryData) : String :=
  match treasury_data with
  | some td =>
    "\n🏛️ TREASURY YIELD UPDATE:\n📊 10Y Treasury: " ++ fmtFixed2 td.current_yield ++
      "% (" ++ fmtSigned2 td.yield_change ++ "bps)\n"
  | none => ""

/-- One rendered rate line of the spot report (lines 248-252); no note
handling exists in this module. -/
def renderRateLine (rate_name : String) (d : RateData) : String :=
  let change_emoji := if d.change > 0 then "🟢" else "🔴"
  let rate_display_name := pyTitle (rate_name.replace ("_") (" "))
  change_emoji ++ " " ++ rate_display_name ++ ": " ++ fmtFixed2 d.current_rate ++
    "% (" ++ fmtSigned2 d.change ++ "bps)\n"

/-- The short-term rates section of the spot report (lines 244-252). -/
def ratesSection (fred_data : List (String × Option RateData)) : String :=
  if fred_data.isEmpty then ""
  else
    "\n💵 SHORT-TERM RATES:\n" ++
      String.join (fred_data.map fun p =>
        match p.2 with
        | some d => renderRateLine p.1 d
        | none => "")

/-- The correlation-analysis section of the spot report (lines 255-270):
the header is always emitted; a body exists only when `treasury_data` and
the `crypto_data` dict are both truthy - there is no narrative input and no
fallback line in this module. -/
def correlationSection (treasury_data : Option TreasuryData)
    (crypto_data : List (String × Option SpotAsset)) (sentiment : String) : String :=
  "\n🔗 MARKET CORRELATION ANALYSIS:\n" ++
    (match treasury_data with
     | some td =>
       if crypto_data.isEmpty then ""
       else if td.yield_change > 0 then
         if sentiment = "bearish" then DailyRecap.risingBearishLine
         else DailyRecap.risingOtherLine
       else
         if sentiment = "bullish" then DailyRecap.fallingBullishLine
         else DailyRecap.fallingOtherLine
     | none => "")

/-- The market summary section of the spot report (lines 273-280). -/
def summarySection (sentiment : String) : String :=
  "\n📋 MARKET SUMMARY:\n🎯 Overall Sentiment: " ++ sentiment.toUpper ++
    "\n🌊 Risk Appetite: " ++
    (if sentiment = "bullish" then "High"
     else if sentiment = "bearish" then "Low" else "Mixed") ++
    "\n💡 Key Takeaway: " ++
    (if sentiment = "bullish" then "Risk-on environment favors crypto"
     else if sentiment = "bearish" then "Risk-off sentiment prevails"
     else "Mixed signals suggest cautious approach") ++
    "\n        \n#Crypto #Markets #Treasury #Finance #DigitalAssets #TradFi #DeFi\n        "

/-- Source method `generate_market_analysis` (lines 195-282), with the clock reading as
an explicit epoch-day input; the report is built by sequential
concatenation exactly as the source's `report +=` chain. -/
def generate_market_analysis (crypto_data : List (String × Option SpotAsset))
    (treasury_data : Option TreasuryData)
    (fred_data : List (String × Option RateData)) (today : ℤ) : String :=
  let sentiment := marketSentiment crypto_data
  let report := "\n🚀 CRYPTO MARKET UPDATE - " ++ fmtDateLong today ++
    " 🚀\n\n📈 CRYPTOCURRENCY PERFORMANCE (24h):\n"
  let report := report ++ cryptoPerfLines crypto_data
  let report := report ++ treasurySection treasury_data
  let report := report ++ ratesSection fred_data
  let report := report ++ correlationSection treasury_data crypto_data sentiment
  let report := report ++ summarySection sentiment
  report

end CryptoUpdate

/-! Helper lemmas shared by the claim theorems. -/

/-- Associativity of string concatenation. -/
theorem strAppendAssoc (a b c : String) : a ++ b ++ c = a ++ (b ++ c) := by
  rcases a with ⟨da⟩; rcases b with ⟨db⟩; rcases c with ⟨dc⟩
  show String.mk (da ++ db ++ dc) = String.mk (da ++ (db ++ dc))
  rw [List.append_assoc]

/-! Claim theorems. -/

/-- C10: for every oracle outcome, the price-feed and short-rate adapters
return mappings whose key sequence is exactly the configured list, in
configured order: a failed fetch maps its key to `none` rather than
dropping it. -/
theorem C10_key_set_invariant
    (fc : String → Except Unit DailyRecap.ChartPayload)
    (fm : String → Except Unit DailyRecap.CoinFields)
    (fs : String → Except Unit CryptoUpdate.SpotPayload)
    (key : Option String) (ff : String → Except Unit FredPayload) :
    (DailyRecap.get_crypto_closing_prices fc fm).map Prod.fst = ["BTC", "ETH", "XRP"] ∧
    (CryptoUpdate.get_crypto_prices fs).map Prod.fst = ["BTC", "ETH", "XRP"] ∧
    ((DailyRecap.get_fred_rates key ff).1).map Prod.fst =
      ["fed_funds_rate", "3_month_tbill", "2_year_treasury"] :=
  ⟨rfl, rfl, rfl⟩

/-- C2: in both report generators, sentiment is `bullish` iff the count of
present records with strictly positive percent change strictly exceeds the
strictly-negative count, `bearish` iff the converse strict inequality
holds, and `mixed` exactly when the counts are equal. -/
theorem C2_sentiment_iff (c₁ : List (String × Option DailyRecap.ClosingAsset))
    (c₂ : List (String × Option CryptoUpdate.SpotAsset)) :
    ((DailyRecap.marketSentiment c₁ = "bullish" ↔
        DailyRecap.cryptoNegativeCount c₁ < DailyRecap.cryptoPositiveCount c₁) ∧
      (DailyRecap.marketSentiment c₁ = "bearish" ↔
        DailyRecap.cryptoPositiveCount c₁ < DailyRecap.cryptoNegativeCount c₁) ∧
      (DailyRecap.marketSentiment c₁ = "mixed" ↔
        DailyRecap.cryptoPositiveCount c₁ = DailyRecap.cryptoNegativeCount c₁)) ∧
    ((CryptoUpdate.marketSentiment c₂ = "bullish" ↔
        CryptoUpdate.cryptoNegativeCount c₂ < CryptoUpdate.cryptoPositiveCount c₂) ∧
      (CryptoUpdate.marketSentiment c₂ = "bearish" ↔
        CryptoUpdate.cryptoPositiveCount c₂ < CryptoUpdate.cryptoNegativeCount c₂) ∧
      (CryptoUpdate.marketSentiment c₂ = "mixed" ↔
        CryptoUpdate.cryptoPositiveCount c₂ = CryptoUpdate.cryptoNegativeCount c₂)) := by
  constructor
  · unfold DailyRecap.marketSentiment
    split_ifs with h1 h2
    · exact ⟨iff_of_true rfl (by omega), iff_of_false (by decide) (by omega),
        iff_of_false (by decide) (by omega)⟩
    · exact ⟨iff_of_false (by decide) (by omega), iff_of_true rfl (by omega),
        iff_of_false (by decide) (by omega)⟩
    · exact ⟨iff_of_false (by decide) (by omega), iff_of_false (by decide) (by omega),
        iff_of_true rfl (by omega)⟩
  · unfold CryptoUpdate.marketSentiment
    split_ifs with h1 h2
    · exact ⟨iff_of_true rfl (by omega), iff_of_false (by decide) (by omega),
        iff_of_false (by decide) (by omega)⟩
    · exact ⟨iff_of_false (by decide) (by omega), iff_of_true rfl (by omega),
        iff_of_false (by decide) (by omega)⟩
    · exact ⟨iff_of_false (by decide) (by omega), iff_of_false (by decide) (by omega),
        iff_of_true rfl (by omega)⟩

/-- C5 counterexample: the spot module's short-rate adapter, whose FRED
credential is permanently unconfigured (`self.fred_api_key = None`), still
issues one request per configured series - the claim's "no network call"
is false there. -/
theorem C5_spot_no_shortcircuit_counterexample :
    (CryptoUpdate.get_fred_rates (fun _ => .error ())).2 = ["FEDFUNDS", "DGS3MO", "DGS2"] ∧
    (["FEDFUNDS", "DGS3MO", "DGS2"] : List String) ≠ [] := by
  exact ⟨rfl, by decide⟩

/-- C5 amended: the closing-price module's `get_fred_rates` short-circuits
every series to `none` with no request when the credential is absent; the
spot module's `get_fred_rates` has no credential check and requests every
configured series regardless. -/
theorem C5_credential_shortcircuit_amended :
    (∀ fetch : String → Except Unit FredPayload,
      DailyRecap.get_fred_rates none fetch =
        ([("fed_funds_rate", none), ("3_month_tbill", none), ("2_year_treasury", none)], [])) ∧
    (∀ fetch : String → Except Unit FredPayload,
      (CryptoUpdate.get_fred_rates fetch).2 = ["FEDFUNDS", "DGS3MO", "DGS2"]) :=
  ⟨fun _ => rfl, fun _ => rfl⟩

/-- C7: a rendered short-term rate line surfaces a present approximation
note verbatim, appended after the closing parenthesis, and a record
without a note renders as the plain line with no note text. -/
theorem C7_rate_note_rendering (rate_name : String) (d : RateData) :
    (∀ n, d.note = some n →
      DailyRecap.renderRateLine rate_name d =
        DailyRecap.rateLineBase rate_name d ++ " " ++ n ++ "\n") ∧
    (d.note = none →
      DailyRecap.renderRateLine rate_name d =
        DailyRecap.rateLineBase rate_name d ++ "\n") := by
  constructor
  · intro n hn
    simp only [DailyRecap.renderRateLine, DailyRecap.rateLineBase, hn, strAppendAssoc]
  · intro hn
    simp only [DailyRecap.renderRateLine, DailyRecap.rateLineBase, hn, strAppendAssoc]

/-- C7 witness: concrete evaluations of the two cases. -/
theorem C7_rate_note_rendering_witness :
    (⟨4, 3, 1, 100/3, some ("Approximated from 3M Treasury")⟩ : RateData).note =
      some ("Approximated from 3M Treasury") ∧
    DailyRecap.renderRateLine ("fed_funds_rate")
        ⟨4, 3, 1, 100/3, some ("Approximated from 3M Treasury")⟩ =
      DailyRecap.rateLineBase ("fed_funds_rate")
          ⟨4, 3, 1, 100/3, some ("Approximated from 3M Treasury")⟩ ++ " " ++
        "Approximated from 3M Treasury" ++ "\n" ∧
    DailyRecap.renderRateLine ("3_month_tbill") ⟨4, 3, 1, 100/3, none⟩ =
      DailyRecap.rateLineBase ("3_month_tbill") ⟨4, 3, 1, 100/3, none⟩ ++ "\n" :=
  ⟨rfl,
   (C7_rate_note_rendering ("fed_funds_rate")
      ⟨4, 3, 1, 100/3, some ("Approximated from 3M Treasury")⟩).1
     ("Approximated from 3M Treasury") rfl,
   (C7_rate_note_rendering ("3_month_tbill") ⟨4, 3, 1, 100/3, none⟩).2 rfl⟩

/-- C8 counterexample: the assembler reads the clock itself - two calls
with identical crypto, treasury, and rate data (and no narrative) but made
on consecutive days produce different report text. -/
theorem C8_clock_dependence_counterexample :
    (DailyRecap.generate_market_recap [] none [] none 18262).recap_text ≠
      (DailyRecap.generate_market_recap [] none [] none 18263).recap_text := by
  decide

/-- C8 amended: the recap text factors as a clock-derived header prefix
followed by a remainder determined solely by the three data inputs and the
narrative result; so with the clock date and narrative fixed, repeated
calls are byte-identical, and the only clock-derived text is the header's
two dates. -/
theorem C8_recap_factorization_amended :
    (∀ (crypto_data : List (String × Option DailyRecap.ClosingAsset))
       (treasury_data : Option TreasuryData)
       (fred_data : List (String × Option RateData))
       (claude_analysis : Option String) (today : ℤ),
      (DailyRecap.generate_market_recap crypto_data treasury_data fred_data
          claude_analysis today).recap_text =
        DailyRecap.recapHeaderText today ++
          DailyRecap.recapBodyText crypto_data treasury_data fred_data claude_analysis) ∧
    (∀ (crypto_data : List (String × Option CryptoUpdate.SpotAsset))
       (treasury_data : Option TreasuryData)
       (fred_data : List (String × Option RateData)) (today : ℤ),
      CryptoUpdate.generate_market_analysis crypto_data treasury_data fred_data today =
        ("\n🚀 CRYPTO MARKET UPDATE - " ++ fmtDateLong today ++
            " 🚀\n\n📈 CRYPTOCURRENCY PERFORMANCE (24h):\n") ++
          (CryptoUpdate.cryptoPerfLines crypto_data ++
            CryptoUpdate.treasurySection treasury_data ++
            CryptoUpdate.ratesSection fred_data ++
            CryptoUpdate.correlationSection treasury_data crypto_data
              (CryptoUpdate.marketSentiment crypto_data) ++
            CryptoUpdate.summarySection (CryptoUpdate.marketSentiment crypto_data))) := by
  constructor
  · intro crypto_data treasury_data fred_data claude_analysis today
    simp only [DailyRecap.generate_market_recap, DailyRecap.recapHeaderText,
      DailyRecap.recapBodyText, strAppendAssoc]
  · intro crypto_data treasury_data fred_data today
    simp only [CryptoUpdate.generate_market_analysis, strAppendAssoc]

/-- C1 counterexample: on a rate-limit `Note` marker the yield adapter
returns `None` without querying FRED, while the independent FRED query
succeeds - the two results differ. -/
theorem C1_note_marker_counterexample :
    DailyRecap.get_treasury_yield (.ok ⟨none, none, some ("rate limit"), none⟩)
        (.ok ⟨some [some 5, some 4]⟩) = none ∧
    DailyRecap.get_treasury_from_fred (.ok ⟨some [some 5, some 4]⟩) =
      some ⟨5, 4, 1, 25, none, none⟩ ∧
    (none : Option TreasuryData) ≠ some ⟨5, 4, 1, 25, none, none⟩ := by
  refine ⟨rfl, by norm_num [DailyRecap.get_treasury_from_fred], by decide⟩

/-- Stable descending insertion preserves length. -/
theorem insertDescByKey_length (x : String × Option (Option ℚ))
    (l : List (String × Option (Option ℚ))) :
    (DailyRecap.insertDescByKey x l).length = l.length + 1 := by
  induction l with
  | nil => rfl
  | cons y ys ih =>
    simp only [DailyRecap.insertDescByKey]
    split
    · simp
    · simp only [List.length_cons, ih]

/-- The descending key sort preserves length. -/
theorem sortDescByKey_length (l : List (String × Option (Option ℚ))) :
    (DailyRecap.sortDescByKey l).length = l.length := by
  induction l with
  | nil => rfl
  | cons x xs ih =>
    simp only [DailyRecap.sortDescByKey, insertDescByKey_length, ih, List.length_cons]

/-- Once the `data` shape is ruled out, the primary-payload body returns
`None` without raising, for every marker combination: a short (or absent)
time series, a `Note`, an `Error Message`, or the unexpected-format
branch. -/
theorem processTreasuryPayload_fallthrough
    (ts : Option (List (String × Option (Option ℚ)))) (nt em : Option String)
    (hts : ∀ l, ts = some l → l.length < 2) :
    DailyRecap.processTreasuryPayload ⟨none, ts, nt, em⟩ = .ok none := by
  rcases ts with _ | tsl
  · rcases nt with _ | s
    · rcases em with _ | e <;> rfl
    · rfl
  · have h2 : (DailyRecap.sortDescByKey tsl).length < 2 := by
      rw [sortDescByKey_length]
      exact hts tsl rfl
    rcases hs : DailyRecap.sortDescByKey tsl with _ | ⟨x, xs⟩
    · simp [DailyRecap.processTreasuryPayload, hs]
    rcases xs with _ | ⟨y, ys⟩
    · simp [DailyRecap.processTreasuryPayload, hs]
    · rw [hs] at h2
      simp only [List.length_cons] at h2
      omega

/-- C1 amended: the yield adapter falls back to the secondary provider
exactly when the primary request raises or the parsing of its payload
raises; on a rate-limit marker, error marker, unexpected format, or fewer
than two observations (in either recognised shape) it returns `None`
directly, without consulting the secondary provider. -/
theorem C1_treasury_fallback_amended :
    (∀ (u : Unit) (fred : Except Unit FredPayload),
      DailyRecap.get_treasury_yield (.error u) fred = DailyRecap.get_treasury_from_fred fred) ∧
    (∀ (p : AVPayload) (e : Unit) (fred : Except Unit FredPayload),
      DailyRecap.processTreasuryPayload p = .error e →
      DailyRecap.get_treasury_yield (.ok p) fred = DailyRecap.get_treasury_from_fred fred) ∧
    (∀ (p : AVPayload) (fred : Except Unit FredPayload),
      (∀ l, p.data = some l → l.length < 2) →
      (∀ l, p.timeSeries = some l → l.length < 2) →
      DailyRecap.get_treasury_yield (.ok p) fred = none) := by
  refine ⟨fun u fred => rfl, ?_, ?_⟩
  · intro p e fred hp
    simp only [DailyRecap.get_treasury_yield, hp]
  · intro p fred hd hts
    obtain ⟨d, ts, nt, em⟩ := p
    have hp : DailyRecap.processTreasuryPayload ⟨d, ts, nt, em⟩ = .ok none := by
      rcases d with _ | l
      · exact processTreasuryPayload_fallthrough ts nt em hts
      rcases l with _ | ⟨a, l⟩
      · exact processTreasuryPayload_fallthrough ts nt em hts
      rcases l with _ | ⟨b, l⟩
      · exact processTreasuryPayload_fallthrough ts nt em hts
      · have h2 := hd (a :: b :: l) rfl
        simp only [List.length_cons] at h2
        omega
    simp only [DailyRecap.get_treasury_yield, hp]

/-- C1 witness: the amended theorem applied to a payload whose value
parsing raises (fallback taken), to the rate-limit and unexpected-format
payloads (absent, no fallback), and to a failing primary request. -/
theorem C1_treasury_fallback_amended_witness :
    DailyRecap.processTreasuryPayload
        ⟨some [⟨none, some none⟩, ⟨none, some (some 4)⟩], none, none, none⟩ = .error () ∧
    DailyRecap.get_treasury_yield
        (.ok ⟨some [⟨none, some none⟩, ⟨none, some (some 4)⟩], none, none, none⟩)
        (.ok ⟨some [some 5, some 4]⟩) =
      DailyRecap.get_treasury_from_fred (.ok ⟨some [some 5, some 4]⟩) ∧
    DailyRecap.get_treasury_yield (.ok ⟨none, none, some ("rate limit"), none⟩)
        (.ok ⟨some [some 5, some 4]⟩) = none ∧
    DailyRecap.get_treasury_yield (.ok ⟨none, none, none, none⟩)
        (.ok ⟨some [some 5, some 4]⟩) = none ∧
    DailyRecap.get_treasury_yield (.error ()) (.error ()) =
      DailyRecap.get_treasury_from_fred (.error ()) :=
  ⟨rfl,
   C1_treasury_fallback_amended.2.1
     ⟨some [⟨none, some none⟩, ⟨none, some (some 4)⟩], none, none, none⟩ ()
     (.ok ⟨some [some 5, some 4]⟩) rfl,
   C1_treasury_fallback_amended.2.2 ⟨none, none, some ("rate limit"), none⟩
     (.ok ⟨some [some 5, some 4]⟩) (fun _ hl => by cases hl) (fun _ hl => by cases hl),
   C1_treasury_fallback_amended.2.2 ⟨none, none, none, none⟩
     (.ok ⟨some [some 5, some 4]⟩) (fun _ hl => by cases hl) (fun _ hl => by cases hl),
   C1_treasury_fallback_amended.1 () (.error ())⟩

/-- C3 counterexample: with a present yield record, no narrative, and an
asset mapping whose every record is absent (asset data wholly absent), the
correlation body is a canned sentence, not the generic unavailable line. -/
theorem C3_allnull_assets_counterexample :
    (([("BTC", none), ("ETH", none), ("XRP", none)] :
        List (String × Option DailyRecap.ClosingAsset)).all fun p => p.2.isNone) = true ∧
    DailyRecap.correlationBody none (some ⟨5, 4, 1, 25, none, none⟩)
        [("BTC", none), ("ETH", none), ("XRP", none)]
        (DailyRecap.marketSentiment [("BTC", none), ("ETH", none), ("XRP", none)]) =
      DailyRecap.risingOtherLine ∧
    DailyRecap.risingOtherLine ≠ DailyRecap.analysisUnavailableLine := by
  refine ⟨rfl, by decide, by decide⟩

/-- C3 amended: narrative output wins when present and non-empty (Python
string truthiness; a present empty narrative behaves exactly as an absent
one); with no usable narrative, a present yield record, and a non-empty
asset mapping (truthiness of the dict - even if every entry is `None`) the
body is one of the four canned sentences keyed by (sign of yield change,
sentiment); the generic line appears exactly when the yield record is
absent or the asset mapping itself is empty; the spot module renders the
header with an empty body in that case. -/
theorem C3_correlation_body_amended :
    (∀ (t : Option TreasuryData) (c : List (String × Option DailyRecap.ClosingAsset))
       (s a : String), a ≠ "" → DailyRecap.correlationBody (some a) t c s = a ++ "\n") ∧
    (∀ (t : Option TreasuryData) (c : List (String × Option DailyRecap.ClosingAsset))
       (s : String),
      DailyRecap.correlationBody (some ("")) t c s = DailyRecap.correlationBody none t c s) ∧
    (∀ (td : TreasuryData) (c : List (String × Option DailyRecap.ClosingAsset)) (s : String),
      c ≠ [] →
      DailyRecap.correlationBody none (some td) c s =
        (if td.yield_change > 0 then
          if s = "bearish" then DailyRecap.risingBearishLine else DailyRecap.risingOtherLine
         else if s = "bullish" then DailyRecap.fallingBullishLine
         else DailyRecap.fallingOtherLine) ∧
      DailyRecap.correlationBody none (some td) c s ∈
        [DailyRecap.risingBearishLine, DailyRecap.risingOtherLine,
         DailyRecap.fallingBullishLine, DailyRecap.fallingOtherLine]) ∧
    (∀ (c : List (String × Option DailyRecap.ClosingAsset)) (s : String),
      DailyRecap.correlationBody none none c s = DailyRecap.analysisUnavailableLine) ∧
    (∀ (td : TreasuryData) (s : String),
      DailyRecap.correlationBody none (some td) [] s = DailyRecap.analysisUnavailableLine) ∧
    (∀ (c : List (String × Option CryptoUpdate.SpotAsset)) (s : String),
      CryptoUpdate.correlationSection none c s = "\n🔗 MARKET CORRELATION ANALYSIS:\n") := by
  refine ⟨?_, fun t c s => rfl, ?_, fun c s => rfl, fun td s => rfl, fun c s => rfl⟩
  · intro t c s a ha
    simp only [DailyRecap.correlationBody]
    rw [if_neg ha]
  intro td c s hc
  have hbody : DailyRecap.correlationBody none (some td) c s =
      (if td.yield_change > 0 then
        if s = "bearish" then DailyRecap.risingBearishLine else DailyRecap.risingOtherLine
       else if s = "bullish" then DailyRecap.fallingBullishLine
       else DailyRecap.fallingOtherLine) := by
    rcases c with _ | ⟨p, c⟩
    · exact absurd rfl hc
    · rfl
  refine ⟨hbody, ?_⟩
  rw [hbody]
  split_ifs <;> simp

/-- C3 witness: the amended theorem applied to a concrete non-empty
narrative and to a one-entry absent-asset mapping with rising yield and
mixed sentiment. -/
theorem C3_correlation_body_amended_witness :
    (("Macro context." : String) ≠ "") ∧
    DailyRecap.correlationBody (some ("Macro context.")) none [] "mixed" =
      "Macro context." ++ "\n" ∧
    ([(("BTC" : String), (none : Option DailyRecap.ClosingAsset))] ≠ []) ∧
    DailyRecap.correlationBody none (some ⟨5, 4, 1, 25, none, none⟩) [("BTC", none)]
        "mixed" = DailyRecap.risingOtherLine ∧
    DailyRecap.correlationBody none (some ⟨5, 4, 1, 25, none, none⟩) [("BTC", none)]
        "mixed" ∈
      [DailyRecap.risingBearishLine, DailyRecap.risingOtherLine,
       DailyRecap.fallingBullishLine, DailyRecap.fallingOtherLine] :=
  ⟨by decide,
   C3_correlation_body_amended.1 none [] "mixed" ("Macro context.") (by decide),
   by decide,
   ((C3_correlation_body_amended.2.2.1 ⟨5, 4, 1, 25, none, none⟩ [("BTC", none)] "mixed"
       (by decide)).1).trans (by decide),
   (C3_correlation_body_amended.2.2.1 ⟨5, 4, 1, 25, none, none⟩ [("BTC", none)] "mixed"
       (by decide)).2⟩

/-- The delta invariant holds for any record the closing-mode per-asset
body produces. -/
theorem processClosingAsset_delta (c : Except Unit DailyRecap.ChartPayload)
    (m : Except Unit DailyRecap.CoinFields) (rec : DailyRecap.ClosingAsset)
    (h : DailyRecap.processClosingAsset c m = some rec) :
    rec.price_change = rec.current_close - rec.previous_close ∧
    rec.price_change_pct =
      (if rec.previous_close ≠ 0 then rec.price_change / rec.previous_close * 100 else 0) := by
  obtain ⟨rc, rp, rd, rpc, rm, rv⟩ := rec
  rcases c with u | ⟨pr⟩
  · simp [DailyRecap.processClosingAsset] at h
  rcases pr with _ | l
  · simp [DailyRecap.processClosingAsset] at h
  rcases hr : l.reverse with _ | ⟨cur, rest⟩
  · simp [DailyRecap.processClosingAsset, hr] at h
  rcases rest with _ | ⟨prev, rest⟩
  · simp [DailyRecap.processClosingAsset, hr] at h
  rcases m with u | mf
  · simp [DailyRecap.processClosingAsset, hr] at h
  · simp only [DailyRecap.processClosingAsset, hr, Option.some.injEq,
      DailyRecap.ClosingAsset.mk.injEq] at h
    obtain ⟨h1, h2, h3, h4, h5, h6⟩ := h
    subst h1; subst h2; subst h3; subst h4
    exact ⟨rfl, rfl⟩

/-- C4 counterexample: in spot mode the change fields are copied verbatim
from the provider, so a payload whose percent change is inconsistent with
its absolute change yields a record violating the claimed invariant
(with the implied previous value `current - absolute_change`). -/
theorem C4_spot_mode_counterexample :
    (CryptoUpdate.get_crypto_prices (fun cid =>
        if cid = "bitcoin" then .ok ⟨100, 3, 5, 1, 1⟩ else .error ())).lookup ("BTC") =
      some (some ⟨100, 3, 5, 1, 1⟩) ∧
    (⟨100, 3, 5, 1, 1⟩ : CryptoUpdate.SpotAsset).price_change_24h_usd /
        ((⟨100, 3, 5, 1, 1⟩ : CryptoUpdate.SpotAsset).current_price -
          (⟨100, 3, 5, 1, 1⟩ : CryptoUpdate.SpotAsset).price_change_24h_usd) * 100 ≠
      (⟨100, 3, 5, 1, 1⟩ : CryptoUpdate.SpotAsset).price_change_24h_pct := by
  refine ⟨by decide, by norm_num⟩

/-- C4 amended: every record the closing-mode price adapter produces
satisfies the delta invariant; the spot-mode adapter copies the
provider-supplied fields verbatim (no delta computation, no previous
value), so no such invariant constrains its records. -/
theorem C4_price_invariant_amended :
    (∀ (fc : String → Except Unit DailyRecap.ChartPayload)
       (fm : String → Except Unit DailyRecap.CoinFields) (sym : String)
       (rec : DailyRecap.ClosingAsset),
      (DailyRecap.get_crypto_closing_prices fc fm).lookup sym = some (some rec) →
      rec.price_change = rec.current_close - rec.previous_close ∧
      rec.price_change_pct =
        (if rec.previous_close ≠ 0 then rec.price_change / rec.previous_close * 100 else 0)) ∧
    (∀ (fetch : String → Except Unit CryptoUpdate.SpotPayload) (sym cid : String)
       (sp : CryptoUpdate.SpotPayload),
      (sym, cid) ∈ CryptoUpdate.crypto_ids → fetch cid = .ok sp →
      (CryptoUpdate.get_crypto_prices fetch).lookup sym =
        some (some ⟨sp.current_price, sp.price_change_percentage_24h, sp.price_change_24h,
                    sp.market_cap, sp.total_volume⟩)) := by
  constructor
  · intro fc fm sym rec h
    simp only [DailyRecap.get_crypto_closing_prices, DailyRecap.crypto_ids, List.map,
      List.lookup] at h
    split at h
    · exact processClosingAsset_delta _ _ _ (Option.some.inj h)
    split at h
    · exact processClosingAsset_delta _ _ _ (Option.some.inj h)
    split at h
    · exact processClosingAsset_delta _ _ _ (Option.some.inj h)
    · cases h
  · intro fetch sym cid sp hmem hok
    simp only [CryptoUpdate.crypto_ids, List.mem_cons, List.not_mem_nil, or_false,
      Prod.mk.injEq] at hmem
    rcases hmem with ⟨h1, h2⟩ | ⟨h1, h2⟩ | ⟨h1, h2⟩ <;> subst h1 <;> subst h2 <;>
      simp only [CryptoUpdate.get_crypto_prices, CryptoUpdate.crypto_ids, List.map, hok] <;>
      rfl

/-- C4 witness: the amended theorem applied to a concrete two-point price
history and to a concrete spot payload. -/
theorem C4_price_invariant_amended_witness :
    ((DailyRecap.get_crypto_closing_prices (fun _ => .ok ⟨some [10, 12]⟩)
        (fun _ => .ok ⟨7, 8⟩)).lookup ("BTC") = some (some ⟨12, 10, 2, 20, 7, 8⟩)) ∧
    ((⟨12, 10, 2, 20, 7, 8⟩ : DailyRecap.ClosingAsset).price_change =
        (⟨12, 10, 2, 20, 7, 8⟩ : DailyRecap.ClosingAsset).current_close -
          (⟨12, 10, 2, 20, 7, 8⟩ : DailyRecap.ClosingAsset).previous_close ∧
      (⟨12, 10, 2, 20, 7, 8⟩ : DailyRecap.ClosingAsset).price_change_pct =
        (if (⟨12, 10, 2, 20, 7, 8⟩ : DailyRecap.ClosingAsset).previous_close ≠ 0 then
          (⟨12, 10, 2, 20, 7, 8⟩ : DailyRecap.ClosingAsset).price_change /
            (⟨12, 10, 2, 20, 7, 8⟩ : DailyRecap.ClosingAsset).previous_close * 100
         else 0)) ∧
    ((CryptoUpdate.get_crypto_prices (fun _ => .ok ⟨1, 2, 3, 4, 5⟩)).lookup ("ETH") =
      some (some ⟨1, 2, 3, 4, 5⟩)) := by
  have hl : (DailyRecap.get_crypto_closing_prices (fun _ => .ok ⟨some [10, 12]⟩)
      (fun _ => .ok ⟨7, 8⟩)).lookup ("BTC") = some (some ⟨12, 10, 2, 20, 7, 8⟩) := by
    norm_num [DailyRecap.get_crypto_closing_prices, DailyRecap.crypto_ids,
      DailyRecap.processClosingAsset, List.lookup]
  exact ⟨hl,
    C4_price_invariant_amended.1 (fun _ => .ok ⟨some [10, 12]⟩) (fun _ => .ok ⟨7, 8⟩)
      ("BTC") ⟨12, 10, 2, 20, 7, 8⟩ hl,
    C4_price_invariant_amended.2 (fun _ => .ok ⟨1, 2, 3, 4, 5⟩) ("ETH") ("ethereum")
      ⟨1, 2, 3, 4, 5⟩ (by decide) rfl⟩

/-- C6 counterexample: with the 2-year maturity obtained but the 3-month
request failing, the fed-funds slot is absent - the claim's "nearest
available short maturity" substitution does not happen. -/
theorem C6_only_2y_counterexample :
    DailyRecap.get_additional_treasury_rates
        (.ok ⟨some [⟨none, some (some 4)⟩, ⟨none, some (some 3)⟩], none, none, none⟩)
        (.error ()) =
      [("2_year_treasury", some ⟨4, 3, 1, 100/3, none⟩), ("3_month_tbill", none),
       ("fed_funds_rate", none)] ∧
    some (⟨4, 3, 1, 100/3, none⟩ : RateData) ≠ (none : Option RateData) := by
  refine ⟨by norm_num [DailyRecap.get_additional_treasury_rates, DailyRecap.processAVRate,
    obsValueStrict], by decide⟩

/-- C6 amended: the fed-funds slot is filled exactly when the 3-month
record is present, copying the 3-month values and tagging the
approximation note; when the 3-month record is absent the fed-funds slot
is absent, regardless of the 2-year record. -/
theorem C6_fed_funds_approx_amended (f2y f3m : Except Unit AVPayload) :
    (∀ r : RateData,
      (DailyRecap.get_additional_treasury_rates f2y f3m).lookup ("3_month_tbill") =
        some (some r) →
      (DailyRecap.get_additional_treasury_rates f2y f3m).lookup ("fed_funds_rate") =
        some (some ⟨r.current_rate, r.previous_rate, r.change, r.change_pct,
                    some ("Approximated from 3M Treasury")⟩)) ∧
    ((DailyRecap.get_additional_treasury_rates f2y f3m).lookup ("3_month_tbill") =
        some none →
      (DailyRecap.get_additional_treasury_rates f2y f3m).lookup ("fed_funds_rate") =
        some none) := by
  have h3m : (DailyRecap.get_additional_treasury_rates f2y f3m).lookup ("3_month_tbill") =
      some (DailyRecap.processAVRate f3m) := rfl
  have hfed : (DailyRecap.get_additional_treasury_rates f2y f3m).lookup ("fed_funds_rate") =
      some (match DailyRecap.processAVRate f3m with
            | some rr => some (⟨rr.current_rate, rr.previous_rate, rr.change, rr.change_pct,
                some ("Approximated from 3M Treasury")⟩ : RateData)
            | none => none) := rfl
  constructor
  · intro r h
    rw [h3m] at h
    rw [hfed, Option.some.inj h]
  · intro h
    rw [h3m] at h
    rw [hfed, Option.some.inj h]

/-- C6 witness: the amended theorem applied to a run where the 3-month
request succeeds. -/
theorem C6_fed_funds_approx_amended_witness :
    ((DailyRecap.get_additional_treasury_rates (.error ())
        (.ok ⟨some [⟨none, some (some 4)⟩, ⟨none, some (some 3)⟩], none, none, none⟩)).lookup
      ("3_month_tbill") = some (some ⟨4, 3, 1, 100/3, none⟩)) ∧
    ((DailyRecap.get_additional_treasury_rates (.error ())
        (.ok ⟨some [⟨none, some (some 4)⟩, ⟨none, some (some 3)⟩], none, none, none⟩)).lookup
      ("fed_funds_rate") =
        some (some ⟨4, 3, 1, 100/3, some ("Approximated from 3M Treasury")⟩)) := by
  have hl : (DailyRecap.get_additional_treasury_rates (.error ())
      (.ok ⟨some [⟨none, some (some 4)⟩, ⟨none, some (some 3)⟩], none, none, none⟩)).lookup
        ("3_month_tbill") = some (some ⟨4, 3, 1, 100/3, none⟩) := by
    rw [show (DailyRecap.get_additional_treasury_rates (.error ())
        (.ok ⟨some [⟨none, some (some 4)⟩, ⟨none, some (some 3)⟩], none, none, none⟩)).lookup
          ("3_month_tbill") =
        some (DailyRecap.processAVRate
          (.ok ⟨some [⟨none, some (some 4)⟩, ⟨none, some (some 3)⟩], none, none, none⟩)) from
      rfl]
    norm_num [DailyRecap.processAVRate, obsValueStrict]
  exact ⟨hl,
    (C6_fed_funds_approx_amended (.error ())
        (.ok ⟨some [⟨none, some (some 4)⟩, ⟨none, some (some 3)⟩], none, none, none⟩)).1
      ⟨4, 3, 1, 100/3, none⟩ hl⟩

/-- C9 counterexample: the spot module's yield adapter accepts a single
observation ("fewer than two observations"), returning a degenerate record
with previous = current and zero change instead of absent. -/
theorem C9_single_observation_counterexample :
    CryptoUpdate.get_treasury_yield
        (.ok ⟨some [⟨none, some (some 4)⟩], none, none, none⟩) =
      some ⟨4, 4, 0, 0, none, none⟩ ∧
    some (⟨4, 4, 0, 0, none, none⟩ : TreasuryData) ≠ (none : Option TreasuryData) := by
  refine ⟨by norm_num [CryptoUpdate.get_treasury_yield, obsValueStrict], by decide⟩

/-- C9 amended: the adapters are total and isolate per-item failures -
a failed request (or a request for an empty payload) maps that item alone
to `none`, items depend only on their own requests, and nothing escapes
the adapter; except that the spot module's yield adapter treats a single
observation as success (previous = current, zero change). -/
theorem C9_adapter_error_isolation_amended :
    (∀ (fc : String → Except Unit DailyRecap.ChartPayload)
       (fm : String → Except Unit DailyRecap.CoinFields) (sym cid : String),
      (sym, cid) ∈ DailyRecap.crypto_ids → fc cid = .error () →
      (DailyRecap.get_crypto_closing_prices fc fm).lookup sym = some none) ∧
    (∀ (fc : String → Except Unit DailyRecap.ChartPayload)
       (fm fm' : String → Except Unit DailyRecap.CoinFields)
       (fc' : String → Except Unit DailyRecap.ChartPayload) (sym cid : String),
      (sym, cid) ∈ DailyRecap.crypto_ids → fc cid = fc' cid → fm cid = fm' cid →
      (DailyRecap.get_crypto_closing_prices fc fm).lookup sym =
        (DailyRecap.get_crypto_closing_prices fc' fm').lookup sym) ∧
    (∀ (key : Option String) (fetch : String → Except Unit FredPayload) (sym sid : String),
      (sym, sid) ∈ DailyRecap.fred_series → fetch sid = .error () →
      ((DailyRecap.get_fred_rates key fetch).1).lookup sym = some none) ∧
    (∀ u : Unit, CryptoUpdate.get_treasury_yield (.error u) = none) ∧
    (∀ p : AVPayload, p.data = none ∨ p.data = some [] →
      CryptoUpdate.get_treasury_yield (.ok p) = none) := by
  refine ⟨?_, ?_, ?_, fun u => rfl, ?_⟩
  · intro fc fm sym cid hmem herr
    simp only [DailyRecap.crypto_ids, List.mem_cons, List.not_mem_nil, or_false,
      Prod.mk.injEq] at hmem
    rcases hmem with ⟨h1, h2⟩ | ⟨h1, h2⟩ | ⟨h1, h2⟩ <;> subst h1 <;> subst h2 <;>
      simp only [DailyRecap.get_crypto_closing_prices, DailyRecap.crypto_ids, List.map,
        herr] <;> rfl
  · intro fc fm fm' fc' sym cid hmem hceq hmeq
    simp only [DailyRecap.crypto_ids, List.mem_cons, List.not_mem_nil, or_false,
      Prod.mk.injEq] at hmem
    rcases hmem with ⟨h1, h2⟩ | ⟨h1, h2⟩ | ⟨h1, h2⟩ <;> subst h1 <;> subst h2 <;>
      simp only [DailyRecap.get_crypto_closing_prices, DailyRecap.crypto_ids, List.map,
        hceq, hmeq] <;> rfl
  · intro key fetch sym sid hmem herr
    simp only [DailyRecap.fred_series, List.mem_cons, List.not_mem_nil, or_false,
      Prod.mk.injEq] at hmem
    rcases hmem with ⟨h1, h2⟩ | ⟨h1, h2⟩ | ⟨h1, h2⟩ <;> subst h1 <;> subst h2 <;>
      rcases key with _ | k <;>
      simp only [DailyRecap.get_fred_rates, DailyRecap.fred_series, List.map, herr] <;> rfl
  · intro p hp
    obtain ⟨d, ts, nt, em⟩ := p
    rcases hp with hp | hp <;> simp only at hp <;> subst hp <;> rfl

/-- C9 witness: the amended theorem applied to a failing chart request for
ETH and to an empty-`data` payload. -/
theorem C9_adapter_error_isolation_amended_witness :
    ((("ETH" : String), ("ethereum" : String)) ∈ DailyRecap.crypto_ids) ∧
    ((DailyRecap.get_crypto_closing_prices (fun _ => .error ())
        (fun _ => .ok ⟨1, 2⟩)).lookup ("ETH") = some none) ∧
    CryptoUpdate.get_treasury_yield (.ok ⟨some [], none, none, none⟩) = none :=
  ⟨by decide,
   C9_adapter_error_isolation_amended.1 (fun _ => .error ()) (fun _ => .ok ⟨1, 2⟩)
     ("ETH") ("ethereum") (by decide) rfl,
   C9_adapter_error_isolation_amended.2.2.2.2 ⟨some [], none, none, none⟩ (Or.inr rfl)⟩

end MarketRecap
